import Mathlib

/-!
Shallow embedding of `custom_components/bmw_connected_drive` (files
`__init__.py` and `config_flow.py`) for checking the specification's claims.

External collaborators are modelled as explicit inputs:
the vendor library call `ConnectedDriveAccount.update_vehicle_states` is an
input of type `RefreshResult` (it either succeeds, replacing the cached
vehicle snapshot, or raises an exception leaving it untouched); host-framework
booleans (platform unload results, service-removal results) are input
functions, following the spec's description of those collaborators.
-/

namespace BMW

/-- Python exception classes relevant to this code.  `except OSError` catches
exactly the `osError` constructor. -/
inductive PyExc where
  | osError (msg : String)
  | attributeError (msg : String)
  | keyError (msg : String)
  | otherExc (msg : String)
deriving DecidableEq, Repr

/-- Whether an exception is (a subclass of) `OSError`. -/
def PyExc.isOSError : PyExc → Bool
  | .osError _ => true
  | _ => false

/-- A vehicle held by a vendor account, keyed by its VIN. -/
structure Vehicle where
  vin : String
deriving DecidableEq, Repr

/-- What a registered update listener does when invoked. -/
inductive ListenerBehavior where
  | returnsNormally
  | raises (e : PyExc)
deriving DecidableEq, Repr

/-- An update listener: an identifier (so invocations can be traced) together
with its behavior when called. -/
structure Listener where
  id : Nat
  behavior : ListenerBehavior
deriving DecidableEq, Repr

/-- State of one `BMWConnectedDriveAccount` wrapper (`__init__.py` lines
187-224): display name, read-only flag, the cached vehicle snapshot held by
the underlying `ConnectedDriveAccount` session, and the ordered listener
list `_update_listeners`. -/
structure BMWConnectedDriveAccount where
  name : String
  read_only : Bool
  snapshot : List Vehicle
  update_listeners : List Listener
deriving DecidableEq, Repr

/-- `add_update_listener` (`__init__.py` lines 222-224): append to the
listener list. -/
def add_update_listener (st : BMWConnectedDriveAccount) (l : Listener) :
    BMWConnectedDriveAccount :=
  { st with update_listeners := st.update_listeners ++ [l] }

/-- Outcome of the vendor call `self.account.update_vehicle_states()`:
either success with the new vehicle snapshot, or an exception. -/
inductive RefreshResult where
  | success (newSnapshot : List Vehicle)
  | failure (e : PyExc)
deriving DecidableEq, Repr

/-- Run the loop `for listener in self._update_listeners: listener()`:
returns the ids of the listeners invoked, in order, and the exception raised
by the first raising listener (if any), which aborts the loop. -/
def runListeners : List Listener → List Nat × Option PyExc
  | [] => ([], none)
  | l :: rest =>
    match l.behavior with
    | .returnsNormally =>
      let r := runListeners rest
      (l.id :: r.1, r.2)
    | .raises e => ([l.id], some e)

/-- Observable outcome of one `update()` call. -/
structure UpdateResult where
  state : BMWConnectedDriveAccount
  invoked : List Nat
  loggedConnectionError : Bool
  raised : Option PyExc
deriving DecidableEq, Repr

/-- `BMWConnectedDriveAccount.update` (`__init__.py` lines 201-220).
The `try` block encloses both the vendor refresh call and the listener loop;
`except OSError` catches an `OSError` raised by either and logs it; any other
exception propagates to the caller. -/
def update (st : BMWConnectedDriveAccount) (refresh : RefreshResult) :
    UpdateResult :=
  match refresh with
  | .success ns =>
    let st2 := { st with snapshot := ns }
    let r := runListeners st.update_listeners
    match r.2 with
    | none => ⟨st2, r.1, false, none⟩
    | some e =>
      if e.isOSError then ⟨st2, r.1, true, none⟩ else ⟨st2, r.1, false, some e⟩
  | .failure e =>
    if e.isOSError then ⟨st, [], true, none⟩ else ⟨st, [], false, some e⟩

/-- `_SERVICE_MAP` (`__init__.py` lines 46-50). -/
def SERVICE_MAP : List (String × String) :=
  [("light_flash", "trigger_remote_light_flash"),
   ("sound_horn", "trigger_remote_horn"),
   ("activate_air_conditioning", "trigger_remote_air_conditioning")]

/-- A Python value appearing as the loop variable in `execute_service`:
iterating the dict `hass.data[DOMAIN]` yields its keys, which are entry-id
strings; the values would be `BMWConnectedDriveAccount` wrappers. -/
inductive PyVal where
  | strVal (s : String)
  | accountVal (a : BMWConnectedDriveAccount)

/-- Dynamic attribute access `x.read_only`: a `str` has no such attribute and
raises `AttributeError`; the wrapper class sets `self.read_only` in
`__init__`. -/
def getattrReadOnly : PyVal → Except PyExc Bool
  | .strVal s => .error (.attributeError (s ++ " has no attribute read_only"))
  | .accountVal a => .ok a.read_only

/-- Dynamic attribute access `x.get_vehicle`: a `str` has no such attribute,
and neither does `BMWConnectedDriveAccount` (its only methods are `update` and
`add_update_listener`; the vendor session held in `self.account` is what
defines `get_vehicle`), so both raise `AttributeError`. -/
def getattrGetVehicle (v : PyVal) (vin : String) : Except PyExc (Option Vehicle) :=
  match v, vin with
  | .strVal s, _ => .error (.attributeError (s ++ " has no attribute get_vehicle"))
  | .accountVal a, _ =>
    .error (.attributeError (a.name ++ " has no attribute get_vehicle"))

/-- The comprehension
`[account for account in hass.data[DOMAIN] if not account.read_only]`,
evaluated left to right; the first element whose `read_only` access raises
aborts the whole comprehension. -/
def filterNotReadOnly : List PyVal → Except PyExc (List PyVal)
  | [] => .ok []
  | v :: rest => do
    let ro ← getattrReadOnly v
    let tail ← filterNotReadOnly rest
    pure (if ro then tail else v :: tail)

/-- The loop `vehicle = None; for account in ...: vehicle = account.get_vehicle(vin)`:
each iteration overwrites `vehicle` with this element's lookup result. -/
def forLoopGetVehicle (vs : List PyVal) (vin : String) :
    Except PyExc (Option Vehicle) :=
  vs.foldlM (fun _ v => getattrGetVehicle v vin) none

/-- Observable outcome of a normal return from `execute_service`:
the `(vin, method name)` remote-control invocations performed, and whether the
vehicle-not-found error was logged. -/
structure ExecResult where
  invocations : List (String × String)
  loggedNotFound : Bool
deriving DecidableEq, Repr

/-- `execute_service` (`__init__.py` lines 152-165).  `hass.data[DOMAIN]` is
the dict mapping entry ids to account wrappers (populated at line 78); the
`for` comprehension iterates that dict, yielding its keys.  On a found
vehicle, `_SERVICE_MAP[call.service]` is a dict lookup (raising `KeyError`
when absent) and the mapped zero-argument remote-service method is called. -/
def execute_service (data : List (String × BMWConnectedDriveAccount))
    (service vin : String) : Except PyExc ExecResult := do
  let filtered ← filterNotReadOnly (data.map (fun p => PyVal.strVal p.1))
  let vehicle ← forLoopGetVehicle filtered vin
  match vehicle with
  | none => pure ⟨[], true⟩
  | some v =>
    match SERVICE_MAP.lookup service with
    | none => Except.error (.keyError service)
    | some fn => pure ⟨[(v.vin, fn)], false⟩

/-- `UPDATE_INTERVAL` (`__init__.py` line 42), in minutes. -/
def UPDATE_INTERVAL : Nat := 5

/-- Python `range(start, stop, step)` for a positive step, as a list. -/
def pythonRange (start stop step : Nat) : List Nat :=
  List.range' start ((stop - start + step - 1) / step) step

/-- The wall-clock instant `dt_util.utcnow()` captured by `setup_account`,
restricted to the fields the scheduler registration reads plus the sub-second
component (which it does not read). -/
structure WallClock where
  minute : Nat
  second : Nat
  microsecond : Nat
deriving DecidableEq, Repr

/-- The arguments handed to the host's `track_utc_time_change` trigger:
the set of matching minutes and the matching second.  This is the account's
scheduler phase offset. -/
structure TrackTimeSpec where
  minutes : List Nat
  second : Nat
deriving DecidableEq, Repr

/-- The scheduler registration of `setup_account` (`__init__.py` lines
176-182): `minute=range(now.minute % UPDATE_INTERVAL, 60, UPDATE_INTERVAL),
second=now.second`. -/
def schedulerSpec (now : WallClock) : TrackTimeSpec :=
  ⟨pythonRange (now.minute % UPDATE_INTERVAL) 60 UPDATE_INTERVAL, now.second⟩

/-- Whether the entry-id key is present in the account map. -/
def containsKey (data : List (String × BMWConnectedDriveAccount)) (k : String) :
    Bool :=
  data.any (fun p => p.1 == k)

/-- Result of `async_setup_entry` as seen by the host: either it raised
`ConfigEntryNotReady` or it completed. -/
inductive SetupEntryResult where
  | notReady
  | ok
deriving DecidableEq, Repr

/-- `async_setup_entry` (`__init__.py` lines 66-78): run `setup_account`
(whose outcome, construction of the wrapper, is the `constructed` input) and
then `account.update` inside one `try`; any exception escaping either is
replaced by `ConfigEntryNotReady`; only then is the account stored under
`hass.data[DOMAIN][entry.entry_id]`.  The remainder of the function
(lines 80-109) registers the `update_state` service and forwards platform
setup to the host and does not touch the account map. -/
def async_setup_entry (data : List (String × BMWConnectedDriveAccount))
    (entryId : String) (constructed : Except PyExc BMWConnectedDriveAccount)
    (refresh : RefreshResult) :
    SetupEntryResult × List (String × BMWConnectedDriveAccount) :=
  match constructed with
  | .error _ => (.notReady, data)
  | .ok acct =>
    let r := update acct refresh
    match r.raised with
    | some _ => (.notReady, data)
    | none => (.ok, data ++ [(entryId, r.state)])

/-- `BMW_COMPONENTS` (`__init__.py` line 41). -/
def BMW_COMPONENTS : List String :=
  ["binary_sensor", "device_tracker", "lock", "notify", "sensor"]

/-- `SERVICE_UPDATE_STATE` (`__init__.py` line 44). -/
def SERVICE_UPDATE_STATE : String := "update_state"

/-- Observable outcome of `async_unload_entry`: its boolean return value, the
account map afterwards, and the services whose removal was requested. -/
structure UnloadResult where
  returnValue : Bool
  newData : List (String × BMWConnectedDriveAccount)
  removedServices : List String
deriving DecidableEq, Repr

/-- `async_unload_entry` (`__init__.py` lines 112-139).  `platformUnload`
gives the host's per-platform `async_forward_entry_unload` result and
`serviceRemove` the per-service removal success (the spec describes the host
registry as yielding a success boolean per removal).  Services are removed
only when the map still holds exactly one account; the entry is popped from
the map only when both `unload_ok` and `unload_services` hold; the function
returns `unload_ok`. -/
def async_unload_entry (data : List (String × BMWConnectedDriveAccount))
    (entryId : String) (platformUnload : String → Bool)
    (serviceRemove : String → Bool) : UnloadResult :=
  let unload_ok := (BMW_COMPONENTS.map platformUnload).all (fun b => b)
  let services := SERVICE_MAP.map Prod.fst ++ [SERVICE_UPDATE_STATE]
  let lastAccount := data.length == 1
  let removed := if lastAccount then services else []
  let unload_services :=
    if lastAccount then (services.map serviceRemove).all (fun b => b) else true
  let newData :=
    if unload_ok && unload_services then data.filter (fun p => p.1 != entryId)
    else data
  ⟨unload_ok, newData, removed⟩

/-- The exception classes handled by `async_step_user` (`config_flow.py`):
the flow's own `CannotConnect` and `InvalidAuth`, plus `OSError` and any
other unexpected exception. -/
inductive FlowExc where
  | cannotConnect
  | invalidAuth
  | osErr (msg : String)
  | unexpected (msg : String)
deriving DecidableEq, Repr

/-- `validate_input` (`config_flow.py` lines 13-38): run `setup_account` and
`account.update` inside one `try`; `except Exception: raise InvalidAuth`
replaces any escaping exception by `InvalidAuth`; on success return the
title. -/
def validate_input (constructed : Except PyExc BMWConnectedDriveAccount)
    (refresh : RefreshResult) (username : String) : Except FlowExc String :=
  match constructed with
  | .error _ => .error .invalidAuth
  | .ok acct =>
    match (update acct refresh).raised with
    | some _ => .error .invalidAuth
    | none => .ok username

/-- Outcome of one submitted step of the config flow. -/
inductive FlowOutcome where
  | createEntry (title : String)
  | formError (base : String)
  | abortAlreadyConfigured
deriving DecidableEq, Repr

/-- The handler chain of `async_step_user` (`config_flow.py` lines 60-66):
`except CannotConnect` sets `cannot_connect`, `except (InvalidAuth, OSError)`
sets `invalid_auth`, `except Exception` sets `unknown`. -/
def classifyFlowExc : FlowExc → String
  | .cannotConnect => "cannot_connect"
  | .invalidAuth => "invalid_auth"
  | .osErr _ => "invalid_auth"
  | .unexpected _ => "unknown"

/-- `async_step_user` with user input (`config_flow.py` lines 47-70): abort
when the unique id `region-username` is already configured; otherwise run
`validate_input` and either create the entry or show the form with the error
produced by the handler chain. -/
def async_step_user (alreadyConfigured : Bool)
    (constructed : Except PyExc BMWConnectedDriveAccount)
    (refresh : RefreshResult) (username : String) : FlowOutcome :=
  if alreadyConfigured then .abortAlreadyConfigured
  else
    match validate_input constructed refresh username with
    | .ok title => .createEntry title
    | .error e => .formError (classifyFlowExc e)

/-! Helper lemmas. -/

/-- Registering listeners one by one appends them in order. -/
theorem foldl_add_update_listener (ls : List Listener)
    (st : BMWConnectedDriveAccount) :
    (ls.foldl add_update_listener st).update_listeners
      = st.update_listeners ++ ls := by
  induction ls generalizing st with
  | nil => simp
  | cons l rest ih =>
    simp [List.foldl, ih, add_update_listener, List.append_assoc]

/-- When no listener raises, the listener loop invokes every listener, in
list order, and raises nothing. -/
theorem runListeners_all_normal (ls : List Listener)
    (hok : ∀ l ∈ ls, l.behavior = .returnsNormally) :
    runListeners ls = (ls.map Listener.id, none) := by
  induction ls with
  | nil => rfl
  | cons l rest ih =>
    have hl : l.behavior = .returnsNormally := hok l (by simp)
    have hr := ih (fun x hx => hok x (by simp [hx]))
    simp [runListeners, hl, hr]

/-! Claim theorems. -/

/-- Claim C1 (code_bug evidence): with exactly one configured, non-read-only
account holding a vehicle with VIN WBA1234, dispatching `light_flash` with
that VIN raises `AttributeError` and performs no remote-control invocation,
because `execute_service` iterates the entry-id-keyed dict itself (yielding
string keys) instead of its values. -/
theorem c1_dispatch_raises_attribute_error :
    execute_service [("entry1", ⟨"account1", false, [⟨"WBA1234"⟩], []⟩)]
        "light_flash" "WBA1234"
      = .error (.attributeError "entry1 has no attribute read_only") := by
  rfl

/-- Claim C2 (code_bug evidence): dispatching against an unregistered VIN
logs and returns only when the account map is empty; as soon as one account
is configured (read-only or not), the dispatch raises `AttributeError` to the
caller instead of logging and returning. -/
theorem c2_unknown_vin_dispatch :
    execute_service [] "light_flash" "UNKNOWN" = .ok ⟨[], true⟩
    ∧ execute_service [("entry2", ⟨"account2", true, [], []⟩)]
        "light_flash" "UNKNOWN"
      = .error (.attributeError "entry2 has no attribute read_only") :=
  ⟨rfl, rfl⟩

/-- Claim C3, counterexample: with listeners [0 (raises), 1], a successful
refresh invokes only listener 0 — not every registered listener. -/
theorem c3_counterexample :
    (update ⟨"a", false, [], [⟨0, .raises (.otherExc "boom")⟩,
        ⟨1, .returnsNormally⟩]⟩ (.success [])).invoked ≠ [0, 1] := by
  decide

/-- Claim C3, amended: if the refresh succeeds and no registered listener
raises, `update` invokes every listener exactly once, in the order they were
registered through `add_update_listener`. -/
theorem c3_amended (st : BMWConnectedDriveAccount) (ls : List Listener)
    (ns : List Vehicle) (h0 : st.update_listeners = [])
    (hok : ∀ l ∈ ls, l.behavior = .returnsNormally) :
    (update (ls.foldl add_update_listener st) (.success ns)).invoked
      = ls.map Listener.id := by
  have h1 : (ls.foldl add_update_listener st).update_listeners = ls := by
    rw [foldl_add_update_listener, h0, List.nil_append]
  simp [update, h1, runListeners_all_normal ls hok]

/-- Witness for `c3_amended` at a concrete account and listener list. -/
theorem c3_amended_witness :
    (update (([⟨0, .returnsNormally⟩, ⟨1, .returnsNormally⟩] :
          List Listener).foldl add_update_listener ⟨"a", false, [], []⟩)
        (.success [])).invoked = [0, 1] :=
  c3_amended ⟨"a", false, [], []⟩
    [⟨0, .returnsNormally⟩, ⟨1, .returnsNormally⟩] [] rfl (by decide)

/-- Claim C4, counterexample: a listener that raises `OSError` does not have
its exception propagate — `update` catches it (the `try` block encloses the
listener loop and `except OSError` matches) and logs it. -/
theorem c4_counterexample :
    (update ⟨"a", false, [], [⟨0, .raises (.osError "io")⟩]⟩
        (.success [])).raised = none
    ∧ (update ⟨"a", false, [], [⟨0, .raises (.osError "io")⟩]⟩
        (.success [])).loggedConnectionError = true := by
  exact ⟨rfl, rfl⟩

/-- Claim C4, amended: an exception raised by a listener during the
post-refresh fan-out propagates to the caller exactly when it is not an
`OSError`; an `OSError` from a listener is caught and logged by the same
handler that covers refresh I/O failures. -/
theorem c4_amended (st : BMWConnectedDriveAccount) (ns : List Vehicle)
    (e : PyExc) (h : (runListeners st.update_listeners).2 = some e) :
    (update st (.success ns)).raised
      = if e.isOSError then none else some e := by
  cases hb : e.isOSError <;> simp [update, h, hb]

/-- Witness for `c4_amended`: a non-OSError listener exception propagates. -/
theorem c4_amended_witness :
    (update ⟨"a", false, [], [⟨7, .raises (.otherExc "boom")⟩]⟩
        (.success [])).raised
      = if (PyExc.otherExc "boom").isOSError then none
        else some (.otherExc "boom") :=
  c4_amended ⟨"a", false, [], [⟨7, .raises (.otherExc "boom")⟩]⟩ []
    (.otherExc "boom") rfl

/-- Claim C5: when the vendor refresh raises an `OSError`, `update` logs the
connection error and returns normally — no listener is invoked, nothing
propagates, and the account state (including the cached vehicle snapshot) is
unchanged. -/
theorem c5_oserror_refresh_swallowed (st : BMWConnectedDriveAccount)
    (e : PyExc) (h : e.isOSError = true) :
    update st (.failure e) = ⟨st, [], true, none⟩ := by
  simp [update, h]

/-- Witness for `c5_oserror_refresh_swallowed` at a concrete account. -/
theorem c5_witness :
    update ⟨"a", false, [⟨"V1"⟩], [⟨0, .returnsNormally⟩]⟩
        (.failure (.osError "net down"))
      = ⟨⟨"a", false, [⟨"V1"⟩], [⟨0, .returnsNormally⟩]⟩, [], true, none⟩ :=
  c5_oserror_refresh_swallowed ⟨"a", false, [⟨"V1"⟩], [⟨0, .returnsNormally⟩]⟩
    (.osError "net down") rfl

/-- Claim C6, counterexample: when the initial blocking refresh raises a
transport-level `OSError`, `update` swallows it, so `async_setup_entry`
completes successfully and stores the entry — it does not raise
`ConfigEntryNotReady`. -/
theorem c6_counterexample :
    async_setup_entry [] "entry1" (.ok ⟨"a", false, [], []⟩)
        (.failure (.osError "net"))
      = (.ok, [("entry1", ⟨"a", false, [], []⟩)]) := by
  rfl

/-- Claim C6, amended: entry setup fails with `ConfigEntryNotReady` (and
stores nothing) when account construction raises, or when the initial refresh
raises a non-`OSError` exception; an `OSError` raised by the refresh is
swallowed inside `update` and setup completes. -/
theorem c6_amended (data : List (String × BMWConnectedDriveAccount))
    (entryId : String) (acct : BMWConnectedDriveAccount)
    (refresh : RefreshResult) (e2 e : PyExc) (he : e.isOSError = false) :
    async_setup_entry data entryId (.error e2) refresh = (.notReady, data)
    ∧ async_setup_entry data entryId (.ok acct) (.failure e)
        = (.notReady, data) := by
  constructor
  · rfl
  · simp [async_setup_entry, update, he]

/-- Witness for `c6_amended` at concrete inputs. -/
theorem c6_amended_witness :
    async_setup_entry [] "e1" (.error (.osError "login")) (.success [])
        = (.notReady, [])
    ∧ async_setup_entry [] "e1" (.ok ⟨"a", false, [], []⟩)
        (.failure (.otherExc "parse")) = (.notReady, []) :=
  c6_amended [] "e1" ⟨"a", false, [], []⟩ (.success [])
    (.osError "login") (.otherExc "parse") rfl

/-- Claim C7: two accounts set up within the same wall-clock second (equal
minute and second fields, possibly different sub-second instants) receive
scheduler phase offsets that differ if and only if their setup minute values
differ — both sides being false, since the offset is computed from the minute
and second alone. -/
theorem c7_same_second_offsets (t1 t2 : WallClock)
    (hm : t1.minute = t2.minute) (hs : t1.second = t2.second) :
    (schedulerSpec t1 ≠ schedulerSpec t2 ↔ t1.minute ≠ t2.minute) := by
  have heq : schedulerSpec t1 = schedulerSpec t2 := by
    simp [schedulerSpec, hm, hs]
  constructor
  · intro h; exact absurd heq h
  · intro h; exact absurd hm h

/-- Witness for `c7_same_second_offsets`: two setup instants in the same
wall-clock second, differing only in microseconds. -/
theorem c7_witness :
    (⟨3, 45, 100⟩ : WallClock).minute = (⟨3, 45, 999999⟩ : WallClock).minute
    ∧ (⟨3, 45, 100⟩ : WallClock).second = (⟨3, 45, 999999⟩ : WallClock).second
    ∧ (schedulerSpec ⟨3, 45, 100⟩ ≠ schedulerSpec ⟨3, 45, 999999⟩
        ↔ (⟨3, 45, 100⟩ : WallClock).minute
            ≠ (⟨3, 45, 999999⟩ : WallClock).minute) :=
  ⟨rfl, rfl, c7_same_second_offsets ⟨3, 45, 100⟩ ⟨3, 45, 999999⟩ rfl rfl⟩

/-- Claim C8, counterexample: an `OSError` (connectivity failure) raised by
the credential probe is surfaced as the `invalid_auth` form error, not as
`cannot_connect`, because `validate_input` converts every probe exception to
`InvalidAuth`. -/
theorem c8_counterexample :
    async_step_user false (.error (.osError "connection refused"))
        (.success []) "user1" = .formError "invalid_auth"
    ∧ .formError "invalid_auth" ≠ FlowOutcome.formError "cannot_connect" := by
  exact ⟨rfl, by decide⟩

/-- Claim C8, amended: every exception raised by the credential probe is
converted to `InvalidAuth` and surfaced as the authentication-failure form
error (the connectivity and unknown classifications are never produced by the
probe), and no entry is created in that case. -/
theorem c8_amended (constructed : Except PyExc BMWConnectedDriveAccount)
    (refresh : RefreshResult) (username : String) (e : FlowExc)
    (h : validate_input constructed refresh username = .error e) :
    e = .invalidAuth
    ∧ async_step_user false constructed refresh username
        = .formError "invalid_auth" := by
  have he : e = .invalidAuth := by
    cases constructed with
    | error e2 =>
      have : (Except.error FlowExc.invalidAuth : Except FlowExc String)
          = .error e := h
      cases this
      rfl
    | ok acct =>
      cases hr : (update acct refresh).raised with
      | none => simp [validate_input, hr] at h
      | some e2 =>
        simp only [validate_input, hr] at h
        cases h
        rfl
  subst he
  exact ⟨rfl, by simp [async_step_user, h, classifyFlowExc]⟩

/-- Witness for `c8_amended`: a probe whose construction step raises an
unexpected exception yields the `invalid_auth` form error. -/
theorem c8_amended_witness :
    FlowExc.invalidAuth = FlowExc.invalidAuth
    ∧ async_step_user false (.error (.otherExc "timeout")) (.success []) "u"
        = .formError "invalid_auth" :=
  c8_amended (.error (.otherExc "timeout")) (.success []) "u" .invalidAuth rfl

/-- Claim C9, counterexample: unloading the last account with all platform
unloads succeeding but every service removal failing returns `true` (the
partial failure is not surfaced as an overall false return), even though the
account is left in the live-account map. -/
theorem c9_counterexample :
    async_unload_entry [("e1", ⟨"a", false, [], []⟩)] "e1"
        (fun _ => true) (fun _ => false)
      = ⟨true, [("e1", ⟨"a", false, [], []⟩)],
         ["light_flash", "sound_horn", "activate_air_conditioning",
          "update_state"]⟩ := by
  rfl

/-- Claim C9, amended: command removal is requested exactly when the unloaded
account is the last remaining one; the account is removed from the map only
if every teardown step succeeded; but the return value reflects only the
platform unloads — a failed command deregistration leaves the account
registered yet still returns `true`. -/
theorem c9_amended (data : List (String × BMWConnectedDriveAccount))
    (entryId : String) (pU sR : String → Bool)
    (hin : containsKey data entryId = true) :
    ((async_unload_entry data entryId pU sR).removedServices
        = SERVICE_MAP.map Prod.fst ++ [SERVICE_UPDATE_STATE]
      ↔ data.length = 1)
    ∧ (containsKey (async_unload_entry data entryId pU sR).newData entryId
          = false
        → (BMW_COMPONENTS.map pU).all (fun b => b) = true
          ∧ (data.length = 1
              → (((SERVICE_MAP.map Prod.fst ++ [SERVICE_UPDATE_STATE]).map
                    sR).all (fun b => b)) = true))
    ∧ (async_unload_entry data entryId pU sR).returnValue
        = (BMW_COMPONENTS.map pU).all (fun b => b) := by
  refine ⟨?_, ?_, rfl⟩
  · by_cases hlen : data.length = 1
    · have hb : (data.length == 1) = true := by simp [hlen]
      simp [async_unload_entry, hb, hlen]
    · have hb : (data.length == 1) = false := by simp [hlen]
      simp [async_unload_entry, hb, hlen, SERVICE_MAP, SERVICE_UPDATE_STATE]
  · intro h
    by_cases hc : ((BMW_COMPONENTS.map pU).all (fun b => b)
        && (if data.length == 1
            then ((SERVICE_MAP.map Prod.fst ++ [SERVICE_UPDATE_STATE]).map
                sR).all (fun b => b)
            else true)) = true
    · have hsplit := Bool.and_eq_true_iff.mp hc
      refine ⟨hsplit.1, fun hlen => ?_⟩
      have hb : (data.length == 1) = true := by simp [hlen]
      rw [hb] at hsplit
      simpa using hsplit.2
    · exfalso
      have hnd : (async_unload_entry data entryId pU sR).newData = data := by
        simp only [async_unload_entry]
        rw [if_neg (by simpa using hc)]
      rw [hnd, hin] at h
      exact absurd h (by decide)

/-- Witness for `c9_amended` at a concrete one-account map with all
teardown steps succeeding. -/
theorem c9_amended_witness :
    ((async_unload_entry [("e1", ⟨"a", false, [], []⟩)] "e1"
          (fun _ => true) (fun _ => true)).removedServices
        = SERVICE_MAP.map Prod.fst ++ [SERVICE_UPDATE_STATE]
      ↔ ([("e1", (⟨"a", false, [], []⟩ : BMWConnectedDriveAccount))]).length
          = 1)
    ∧ (containsKey (async_unload_entry [("e1", ⟨"a", false, [], []⟩)] "e1"
            (fun _ => true) (fun _ => true)).newData "e1" = false
        → (BMW_COMPONENTS.map (fun _ => true)).all (fun b => b) = true
          ∧ (([("e1", (⟨"a", false, [], []⟩ :
                  BMWConnectedDriveAccount))]).length = 1
              → (((SERVICE_MAP.map Prod.fst ++ [SERVICE_UPDATE_STATE]).map
                    (fun _ => true)).all (fun b => b)) = true))
    ∧ (async_unload_entry [("e1", ⟨"a", false, [], []⟩)] "e1"
          (fun _ => true) (fun _ => true)).returnValue
        = (BMW_COMPONENTS.map (fun _ => true)).all (fun b => b) :=
  c9_amended [("e1", ⟨"a", false, [], []⟩)] "e1"
    (fun _ => true) (fun _ => true) rfl

/-- Claim C10: entry setup is atomic with respect to the live-account map —
if construction raises, or the initial refresh step raises out of `update`,
`async_setup_entry` signals `ConfigEntryNotReady` and leaves the map exactly
as it was (so the entry id is absent after a failed setup), and the entry id
is present afterwards only when both steps succeeded. -/
theorem c10_setup_atomic (data : List (String × BMWConnectedDriveAccount))
    (entryId : String) (constructed : Except PyExc BMWConnectedDriveAccount)
    (refresh : RefreshResult) (hfresh : containsKey data entryId = false) :
    ((∃ e, constructed = .error e)
        ∨ (∃ acct, constructed = .ok acct
            ∧ (update acct refresh).raised ≠ none)
      → async_setup_entry data entryId constructed refresh
          = (.notReady, data))
    ∧ (containsKey
          (async_setup_entry data entryId constructed refresh).2 entryId
          = true
        → (async_setup_entry data entryId constructed refresh).1 = .ok
          ∧ ∃ acct, constructed = .ok acct
              ∧ (update acct refresh).raised = none) := by
  constructor
  · rintro (⟨e, rfl⟩ | ⟨acct, rfl, hr⟩)
    · rfl
    · cases hx : (update acct refresh).raised with
      | none => exact absurd hx hr
      | some e2 => simp [async_setup_entry, hx]
  · intro h
    cases constructed with
    | error e => rw [show async_setup_entry data entryId (.error e) refresh
          = (.notReady, data) from rfl] at h; rw [hfresh] at h; cases h
    | ok acct =>
      cases hx : (update acct refresh).raised with
      | some e2 =>
        have hd : (async_setup_entry data entryId (.ok acct) refresh).2
            = data := by simp [async_setup_entry, hx]
        rw [hd, hfresh] at h
        cases h
      | none =>
        refine ⟨by simp [async_setup_entry, hx], acct, rfl, hx⟩

/-- Witness for `c10_setup_atomic`: a failed construction inserts nothing. -/
theorem c10_setup_atomic_witness :
    ((∃ e, (Except.error (PyExc.osError "x") :
          Except PyExc BMWConnectedDriveAccount) = .error e)
        ∨ (∃ acct, (Except.error (PyExc.osError "x") :
              Except PyExc BMWConnectedDriveAccount) = .ok acct
            ∧ (update acct (.success [])).raised ≠ none)
      → async_setup_entry [] "e1" (.error (.osError "x")) (.success [])
          = (.notReady, []))
    ∧ (containsKey
          (async_setup_entry [] "e1" (.error (.osError "x"))
            (.success [])).2 "e1" = true
        → (async_setup_entry [] "e1" (.error (.osError "x"))
              (.success [])).1 = .ok
          ∧ ∃ acct, (Except.error (PyExc.osError "x") :
                Except PyExc BMWConnectedDriveAccount) = .ok acct
              ∧ (update acct (.success [])).raised = none) :=
  c10_setup_atomic [] "e1" (.error (.osError "x")) (.success []) rfl

end BMW
